import Mathlib

/-!
Verification of the daily ticket-queue subsystem of the lanchonete backend
(`src/server/routes.ts`): the `/api/queue/sync`, `/api/queue/add-and-notify`
and `/api/queue/update-status` request handlers, shallowly embedded as pure
Lean functions over an explicit queue state.  Each handler returns the HTTP
response it would send, the queue state it leaves behind, and the ordered
trace of side-effecting calls it makes (the `saveQueueData` write and each
notification dispatch), so that temporal and error-handling properties can
be stated about the call order and outcomes.
-/

namespace Lanchonete

/-- An order as the queue subsystem sees it (routes.ts passes the payload
through untouched; `createdAt` is `none` when the client omitted it). -/
structure Order where
  id : String
  ticket : String
  status : String
  createdAt : Option Nat
  customerName : String
  customerPhone : String
  total : Int
  items : List String
deriving Repr, DecidableEq

/-- The durable queue state handled by `loadQueueData` / `saveQueueData`. -/
structure QueueData where
  orders : List Order
  currentPrefix : String
  currentNumber : Int
deriving Repr, DecidableEq

/-- A default order value, standing for JS `undefined` in out-of-range
index accesses (never actually reached under the proved bounds). -/
def dummyOrder : Order := ⟨"", "", "", none, "", "", 0, []⟩

/-- One side-effecting call of a handler, in program order: the durable
`saveQueueData` write, or one notification dispatch to a channel adapter. -/
inductive Event where
  | emailNewOrder (orderId : String)
  | whatsappAdminNewOrder (orderId : String)
  | whatsappCustomerNewOrder (orderId : String)
  | whatsappCustomerStatus (orderId : String)
  | save
deriving Repr, DecidableEq

/-- Whether the event is the durable `saveQueueData` write. -/
def Event.isSave : Event → Bool
  | Event.save => true
  | _ => false

/-- Whether the event is a WhatsApp-channel dispatch. -/
def Event.isWhatsapp : Event → Bool
  | Event.whatsappAdminNewOrder _ => true
  | Event.whatsappCustomerNewOrder _ => true
  | Event.whatsappCustomerStatus _ => true
  | _ => false

/-- Outcome of one channel-adapter call: the promise resolves `true`,
resolves falsy, or rejects (throws). -/
inductive NotifyOutcome where
  | success
  | failure
  | exn
deriving Repr, DecidableEq

/-- The behaviour of the three channel adapters during one request. -/
structure Adapters where
  email : NotifyOutcome
  whatsappAdmin : NotifyOutcome
  whatsappCustomer : NotifyOutcome
deriving Repr, DecidableEq

/-- The HTTP response a queue handler sends. -/
inductive Response where
  | badRequest
  | notFound
  | serverError
  | okSync (orderCount : Nat)
  | created
  | okSuccess
deriving Repr, DecidableEq

/-- What one handler run produces: the response, the queue state left in the
durable store, and the trace of side-effecting calls in program order. -/
structure HandlerResult where
  response : Response
  state : QueueData
  trace : List Event
deriving Repr, DecidableEq

/-- JS truthiness of an optional string value (`undefined` and `""` are
falsy), as used by the `if (!x)` guards in routes.ts. -/
def jsTruthyStr : Option String → Bool
  | none => false
  | some s => !(s == "")

/-- JS truthiness of an optional number value (`undefined` and `0` are
falsy), as used by the `if (!currentNumber)` guard in routes.ts. -/
def jsTruthyInt : Option Int → Bool
  | none => false
  | some n => !(n == 0)

/-- Body of a `POST /api/queue/sync` request; `orders = none` stands for a
body whose `orders` field is missing or not an array. -/
structure SyncRequest where
  orders : Option (List Order)
  currentPrefix : Option String
  currentNumber : Option Int
deriving Repr, DecidableEq

/-- The per-order processing of the sync handler (routes.ts 608-618): a
missing `createdAt` is defaulted to now, a present one is kept (re-parsed
into a date). -/
def processOrder (now : Nat) (o : Order) : Order :=
  { o with createdAt := some (o.createdAt.getD now) }

/-- The `POST /api/queue/sync` handler (routes.ts 551-644).  Validation
rejects a missing/non-array `orders` and a falsy `currentPrefix` or
`currentNumber`.  It then loads the server state, emails a new-order
notification for every client order whose id the server does not hold,
processes the client orders, and saves `{orders := processedOrders,
currentPrefix, currentNumber}` — the client snapshot wholesale.  Note the
email dispatches happen before the `saveQueueData` call, as in the source. -/
def syncHandler (now : Nat) (server : QueueData) (req : SyncRequest) : HandlerResult :=
  match req.orders with
  | none => ⟨Response.badRequest, server, []⟩
  | some orders =>
    if !(jsTruthyStr req.currentPrefix) then ⟨Response.badRequest, server, []⟩
    else if !(jsTruthyInt req.currentNumber) then ⟨Response.badRequest, server, []⟩
    else
      let currentOrderIds := server.orders.map (fun o => o.id)
      let newOrders := orders.filter (fun o => !(currentOrderIds.contains o.id))
      let emailEvents := newOrders.map (fun o => Event.emailNewOrder o.id)
      let processedOrders := orders.map (processOrder now)
      let newState : QueueData :=
        { orders := processedOrders
          currentPrefix := req.currentPrefix.getD ""
          currentNumber := req.currentNumber.getD 0 }
      ⟨Response.okSync processedOrders.length, newState, emailEvents ++ [Event.save]⟩

/-- The `POST /api/queue/add-and-notify` handler (routes.ts 667-739): after
rejecting a missing order it appends the order, saves, and then dispatches
the email and admin-WhatsApp notifications, plus the customer-WhatsApp one
when a phone was supplied.  Every notification promise carries a `.catch`
returning null and the results are gathered with `Promise.allSettled`, so
the 201 success response does not depend on the adapters' outcomes. -/
def addAndNotifyHandler (server : QueueData) (order : Option Order)
    (customerPhone : Option String) (_a : Adapters) : HandlerResult :=
  match order with
  | none => ⟨Response.badRequest, server, []⟩
  | some o =>
    let newState := { server with orders := server.orders ++ [o] }
    let evs := Event.save :: Event.emailNewOrder o.id :: Event.whatsappAdminNewOrder o.id ::
      (if jsTruthyStr customerPhone then [Event.whatsappCustomerNewOrder o.id] else [])
    ⟨Response.created, newState, evs⟩

/-- The `POST /api/queue/update-status` handler (routes.ts 742-782): rejects
a falsy `orderId` or `status`, 404s when no order has the id, otherwise sets
the status of the order at the matched index, saves, and — when a phone was
supplied — awaits the customer-WhatsApp notification with no local catch:
a rejection there falls to the handler's catch block and turns the response
into a 500, although the state was already saved. -/
def updateStatusHandler (server : QueueData) (orderId status customerPhone : Option String)
    (a : Adapters) : HandlerResult :=
  if !(jsTruthyStr orderId) || !(jsTruthyStr status) then ⟨Response.badRequest, server, []⟩
  else
    let oid := orderId.getD ""
    let st := status.getD ""
    let i := server.orders.findIdx (fun o => o.id == oid)
    if i < server.orders.length then
      let newOrders := server.orders.set i { server.orders.getD i dummyOrder with status := st }
      let newState := { server with orders := newOrders }
      let evs := Event.save ::
        (if jsTruthyStr customerPhone then [Event.whatsappCustomerStatus oid] else [])
      let resp := if jsTruthyStr customerPhone && (a.whatsappCustomer == NotifyOutcome.exn)
        then Response.serverError else Response.okSuccess
      ⟨resp, newState, evs⟩
    else ⟨Response.notFound, server, []⟩

/-- The sync handler's validation predicate, as the source's three
truthiness guards compute it. -/
def syncValid (req : SyncRequest) : Bool :=
  req.orders.isSome && jsTruthyStr req.currentPrefix && jsTruthyInt req.currentNumber

/-- The durable write precedes every notification dispatch in the trace:
every non-save event has a save event strictly before it. -/
def saveBefore (tr : List Event) : Prop :=
  ∀ j < tr.length, (tr.getD j Event.save).isSave = false →
    ∃ i < j, (tr.getD i Event.save).isSave = true

instance (tr : List Event) : Decidable (saveBefore tr) := by
  unfold saveBefore
  infer_instance

/- Concrete fixtures used by the closed counterexample and witness
theorems. -/

/-- A server-held order with id `a`. -/
def orderA : Order := ⟨"a", "A1", "recebido", some 10, "Ana", "", 10, []⟩

/-- A client-submitted order with id `b`, unknown to the server. -/
def orderB : Order := ⟨"b", "A2", "recebido", some 20, "Bia", "", 20, []⟩

/-- A client-submitted order with id `c`. -/
def orderC : Order := ⟨"c", "A3", "recebido", some 30, "Clu", "", 30, []⟩

/-- A second client-submitted order with id `d`. -/
def orderD : Order := ⟨"d", "A4", "recebido", some 40, "Dan", "", 40, []⟩

/-- A server state holding exactly the order with id `a`. -/
def stateA : QueueData := ⟨[orderA], "A", 3⟩

/-- A server state with no orders. -/
def emptyState : QueueData := ⟨[], "A", 1⟩

/-- Adapters that all succeed. -/
def adaptersOk : Adapters := ⟨NotifyOutcome.success, NotifyOutcome.success, NotifyOutcome.success⟩

/-- Adapters where the customer-WhatsApp call rejects (throws). -/
def adaptersExn : Adapters := ⟨NotifyOutcome.success, NotifyOutcome.success, NotifyOutcome.exn⟩

/-- A valid sync request carrying only order `b`. -/
def reqB : SyncRequest := ⟨some [orderB], some "A", some 4⟩

/-- A valid sync request carrying only order `c`. -/
def reqC : SyncRequest := ⟨some [orderC], some "A", some 2⟩

/-- A sync request whose `currentNumber` is 0 (non-negative, but falsy). -/
def reqZero : SyncRequest := ⟨some [], some "B", some 0⟩

/-- A distinct order reusing the id `a` already held by `stateA`. -/
def orderDupA : Order := ⟨"a", "A9", "recebido", some 5, "Eva", "", 5, []⟩

/-- A valid sync request carrying the two orders `c` and `d`. -/
def reqCD : SyncRequest := ⟨some [orderC, orderD], some "A", some 6⟩

/-! ## Helper lemmas -/

/-- The empty trace vacuously saves before every dispatch. -/
theorem saveBefore_nil : saveBefore [] := by
  intro j hj
  exact absurd hj (Nat.not_lt_zero j)

/-- A trace whose first event is the durable write saves before every
dispatch: position 0 is the witness for every later event. -/
theorem saveBefore_cons_save (tr : List Event) : saveBefore (Event.save :: tr) := by
  intro j hj hns
  match j with
  | 0 => simp [Event.isSave] at hns
  | k + 1 => exact ⟨0, Nat.succ_pos k, rfl⟩

/-- Overwriting the `status` field of one list element leaves the projected
id sequence unchanged. -/
theorem map_id_set_status (l : List Order) (i : Nat) (st : String) (d : Order) :
    (l.set i { l.getD i d with status := st }).map (fun o => o.id)
      = l.map (fun o => o.id) := by
  induction l generalizing i with
  | nil => simp
  | cons o rest ih =>
    cases i with
    | zero => simp
    | succ k => simpa using ih k

/-! ## C1: merge additivity / no-deletion -/

/-- C1 counterexample: the server holds order `a`, the client snapshot holds
only the new order `b`, the sync is accepted — and order `a` is gone from
the saved server state.  The sync is not an additive merge: it saves the
client snapshot wholesale. -/
theorem sync_drops_server_only_order :
    "a" ∈ stateA.orders.map (fun o => o.id) ∧
    (syncHandler 100 stateA reqB).response = Response.okSync 1 ∧
    "a" ∉ (syncHandler 100 stateA reqB).state.orders.map (fun o => o.id) := by
  refine ⟨by decide, by decide, by decide⟩

/-- C1 amended: an accepted sync does not merge at all — it replaces the
server's order list with the processed client-submitted array, so client
orders (new ids included) are all present afterwards, and server-held
orders whose id the client snapshot lacks are removed. -/
theorem sync_replaces_orders_with_client_snapshot (now : Nat) (s : QueueData)
    (req : SyncRequest) (orders : List Order) (ho : req.orders = some orders)
    (hp : jsTruthyStr req.currentPrefix = true)
    (hn : jsTruthyInt req.currentNumber = true) :
    (syncHandler now s req).state.orders = orders.map (processOrder now) ∧
    (syncHandler now s req).response = Response.okSync orders.length := by
  simp [syncHandler, ho, hp, hn]

/-- C1 witness: the amended theorem applied to the concrete server state
holding order `a` and the client snapshot holding only order `b`. -/
theorem sync_replaces_orders_with_client_snapshot_witness :
    (syncHandler 100 stateA reqB).state.orders = [orderB].map (processOrder 100) ∧
    (syncHandler 100 stateA reqB).response = Response.okSync 1 :=
  sync_replaces_orders_with_client_snapshot 100 stateA reqB [orderB]
    (by decide) (by decide) (by decide)

/-! ## C2: durable save before notification dispatch -/

/-- C2 counterexample: a sync carrying the new order `c` dispatches its
new-order email before the `saveQueueData` call — the trace is the email
event followed by the save event, so the save does not precede every
dispatch of the request. -/
theorem sync_dispatches_email_before_save :
    (syncHandler 5 emptyState reqC).trace = [Event.emailNewOrder "c", Event.save] ∧
    ¬ saveBefore (syncHandler 5 emptyState reqC).trace := by
  refine ⟨by decide, by decide⟩

/-- C2 amended: add-and-notify and update-status do commit the mutated state
before dispatching any notification of the request (their traces start with
the save, or are empty on rejection); the sync handler, however, dispatches
the new-order emails before its save. -/
theorem add_and_update_save_before_dispatch (s s2 : QueueData) (o : Option Order)
    (phone : Option String) (a : Adapters) (orderId status customerPhone : Option String)
    (b : Adapters) :
    saveBefore (addAndNotifyHandler s o phone a).trace ∧
    saveBefore (updateStatusHandler s2 orderId status customerPhone b).trace := by
  constructor
  · cases o with
    | none => simpa [addAndNotifyHandler] using saveBefore_nil
    | some ord => simpa [addAndNotifyHandler] using saveBefore_cons_save _
  · unfold updateStatusHandler
    split
    · exact saveBefore_nil
    · dsimp only
      split
      · simpa using saveBefore_cons_save _
      · simpa using saveBefore_nil

/-! ## C3: notification failure never surfaces as the operation's failure -/

/-- C3 counterexample: an update-status request for the held order `a`, with
a customer phone, whose customer-WhatsApp call rejects.  The status mutation
is saved (the stored order carries the new status), yet the handler answers
with a 500 server error: the notification failure is surfaced as the
operation's failure. -/
theorem update_status_surfaces_notification_exn :
    (updateStatusHandler stateA (some "a") (some "confirmado") (some "+15550000")
        adaptersExn).state.orders
      = [{ orderA with status := "confirmado" }] ∧
    (updateStatusHandler stateA (some "a") (some "confirmado") (some "+15550000")
        adaptersExn).response = Response.serverError := by
  refine ⟨by decide, by decide⟩

/-- C3 amended: add-and-notify always answers 201 success whatever the
channel adapters do; update-status, however, answers success exactly when
no awaited customer-WhatsApp call rejects — a rejection there (customer
phone supplied and the adapter throwing) is surfaced as a 500 error even
though the status mutation was already saved. -/
theorem add_and_notify_success_independent_of_adapters (s s2 : QueueData) (o : Order)
    (phone : Option String) (a : Adapters) (orderId status customerPhone : Option String)
    (b : Adapters) (h1 : jsTruthyStr orderId = true) (h2 : jsTruthyStr status = true)
    (h3 : s2.orders.findIdx (fun x => x.id == orderId.getD "") < s2.orders.length) :
    (addAndNotifyHandler s (some o) phone a).response = Response.created ∧
    ((updateStatusHandler s2 orderId status customerPhone b).response = Response.okSuccess ↔
      ¬(jsTruthyStr customerPhone = true ∧ b.whatsappCustomer = NotifyOutcome.exn)) := by
  constructor
  · rfl
  · unfold updateStatusHandler
    rw [if_neg (by simp [h1, h2]), if_pos h3]
    by_cases hc : (jsTruthyStr customerPhone && (b.whatsappCustomer == NotifyOutcome.exn)) = true
    · rw [if_pos hc]
      simp only [Bool.and_eq_true, beq_iff_eq] at hc
      simp [hc]
    · rw [if_neg hc]
      simp only [Bool.and_eq_true, beq_iff_eq] at hc
      simp [hc]

/-- C3 witness: the amended theorem at the concrete one-order state, a
throwing customer adapter for add-and-notify (still 201), and a successful
adapter for update-status (success iff no throw, here no throw). -/
theorem add_and_notify_success_independent_of_adapters_witness :
    (addAndNotifyHandler stateA (some orderB) (some "+15550000") adaptersExn).response
      = Response.created ∧
    ((updateStatusHandler stateA (some "a") (some "confirmado") (some "+15550000")
        adaptersOk).response = Response.okSuccess ↔
      ¬(jsTruthyStr (some "+15550000") = true ∧
        adaptersOk.whatsappCustomer = NotifyOutcome.exn)) :=
  add_and_notify_success_independent_of_adapters stateA stateA orderB (some "+15550000")
    adaptersExn (some "a") (some "confirmado") (some "+15550000") adaptersOk
    (by decide) (by decide) (by decide)

/-! ## C4: sync validation of the sequencer fields -/

/-- C4 counterexample: a sync with the non-empty prefix `B` and the
non-negative number 0 — which the claim says must pass validation — is
rejected with a validation error and leaves the state unchanged: the guard
is JS truthiness, and 0 is falsy. -/
theorem sync_rejects_zero_number :
    reqZero.currentPrefix = some "B" ∧ "B" ≠ "" ∧
    reqZero.currentNumber = some 0 ∧ (0 : Int) ≥ 0 ∧
    (syncHandler 0 stateA reqZero).response = Response.badRequest ∧
    (syncHandler 0 stateA reqZero).state = stateA := by
  refine ⟨by decide, by decide, by decide, by decide, by decide, by decide⟩

/-- C4 amended: the submitted sequencer fields replace the server's exactly
when the request passes the handler's truthiness guards — `orders` present,
`currentPrefix` a non-empty string, `currentNumber` non-zero (negative
numbers pass, 0 is rejected); a request failing a guard is rejected with a
validation error, with the server state untouched and no side effect. -/
theorem sync_sequencer_replacement_iff_truthy (now now2 : Nat) (s s2 : QueueData)
    (req req2 : SyncRequest) (hv : syncValid req = true) (hi : syncValid req2 = false) :
    ((syncHandler now s req).response = Response.okSync ((req.orders.getD []).length) ∧
     (syncHandler now s req).state.currentPrefix = req.currentPrefix.getD "" ∧
     (syncHandler now s req).state.currentNumber = req.currentNumber.getD 0) ∧
    ((syncHandler now2 s2 req2).response = Response.badRequest ∧
     (syncHandler now2 s2 req2).state = s2 ∧
     (syncHandler now2 s2 req2).trace = []) := by
  simp only [syncValid, Bool.and_eq_true, Option.isSome_iff_exists] at hv
  obtain ⟨⟨⟨orders, ho⟩, hp⟩, hn⟩ := hv
  refine ⟨by simp [syncHandler, ho, hp, hn], ?_⟩
  cases ho2 : req2.orders with
  | none => simp [syncHandler, ho2]
  | some orders2 =>
    cases hp2 : jsTruthyStr req2.currentPrefix with
    | false => simp [syncHandler, ho2, hp2]
    | true =>
      cases hn2 : jsTruthyInt req2.currentNumber with
      | false => simp [syncHandler, ho2, hp2, hn2]
      | true => simp [syncValid, ho2, hp2, hn2] at hi

/-- C4 witness: the amended theorem at the valid request carrying order `b`
(prefix `A`, number 4) and the rejected request with number 0. -/
theorem sync_sequencer_replacement_iff_truthy_witness :
    (((syncHandler 7 stateA reqB).response = Response.okSync ((reqB.orders.getD []).length) ∧
      (syncHandler 7 stateA reqB).state.currentPrefix = reqB.currentPrefix.getD "" ∧
      (syncHandler 7 stateA reqB).state.currentNumber = reqB.currentNumber.getD 0) ∧
     ((syncHandler 9 stateA reqZero).response = Response.badRequest ∧
      (syncHandler 9 stateA reqZero).state = stateA ∧
      (syncHandler 9 stateA reqZero).trace = [])) :=
  sync_sequencer_replacement_iff_truthy 7 9 stateA stateA reqB reqZero (by decide) (by decide)

/-! ## C5: sync retry idempotence on the order count -/

/-- C5: replaying a sync with the identical request (same orders array, same
sequencer fields) leaves the resulting order count unchanged — the second
application saves the same number of orders as the first, so the operation
is safe to retry.  (This holds in every case: an accepted sync stores
exactly the client array, and a rejected one changes nothing.) -/
theorem sync_retry_preserves_order_count (now now2 : Nat) (s : QueueData)
    (req : SyncRequest) :
    (syncHandler now2 (syncHandler now s req).state req).state.orders.length
      = (syncHandler now s req).state.orders.length := by
  cases ho : req.orders with
  | none => simp [syncHandler, ho]
  | some orders =>
    cases hp : jsTruthyStr req.currentPrefix with
    | false => simp [syncHandler, ho, hp]
    | true =>
      cases hn : jsTruthyInt req.currentNumber with
      | false => simp [syncHandler, ho, hp, hn]
      | true => simp [syncHandler, ho, hp, hn]

/-! ## C6: channel selection for a new-order event -/

/-- C6 counterexample: a sync ingesting the new order `c` is accepted and
emails the new-order notification, but dispatches no admin-WhatsApp
notification for it — the sync path notifies by email only. -/
theorem sync_new_order_lacks_admin_whatsapp :
    (syncHandler 5 emptyState reqC).response = Response.okSync 1 ∧
    "c" ∉ emptyState.orders.map (fun o => o.id) ∧
    Event.emailNewOrder "c" ∈ (syncHandler 5 emptyState reqC).trace ∧
    Event.whatsappAdminNewOrder "c" ∉ (syncHandler 5 emptyState reqC).trace := by
  refine ⟨by decide, by decide, by decide, by decide⟩

/-- C6 amended: a new order entering through add-and-notify is dispatched to
the email and admin-WhatsApp channels, and to the customer-WhatsApp channel
exactly when a customer phone was supplied; a new order entering through
sync is dispatched to the email channel only — the sync path sends no
WhatsApp notification of any kind. -/
theorem new_order_channel_selection (s : QueueData) (o : Order) (phone : Option String)
    (a : Adapters) (now : Nat) (s2 : QueueData) (req : SyncRequest) (orders : List Order)
    (o2 : Order) (ho : req.orders = some orders) (hp : jsTruthyStr req.currentPrefix = true)
    (hn : jsTruthyInt req.currentNumber = true) (hmem : o2 ∈ orders)
    (hnew : (s2.orders.map (fun x => x.id)).contains o2.id = false) :
    (Event.emailNewOrder o.id ∈ (addAndNotifyHandler s (some o) phone a).trace ∧
     Event.whatsappAdminNewOrder o.id ∈ (addAndNotifyHandler s (some o) phone a).trace ∧
     (Event.whatsappCustomerNewOrder o.id ∈ (addAndNotifyHandler s (some o) phone a).trace ↔
       jsTruthyStr phone = true)) ∧
    (Event.emailNewOrder o2.id ∈ (syncHandler now s2 req).trace ∧
     ∀ e ∈ (syncHandler now s2 req).trace, e.isWhatsapp = false) := by
  constructor
  · cases hph : jsTruthyStr phone <;> simp [addAndNotifyHandler, hph]
  · constructor
    · have hfil : o2 ∈ orders.filter
          (fun x => !((s2.orders.map (fun y => y.id)).contains x.id)) := by
        simp only [List.mem_filter, hmem, true_and, Bool.not_eq_true']
        exact hnew
      simp only [syncHandler, ho, hp, hn, Bool.not_true, Bool.false_eq_true, if_false]
      exact List.mem_append_left _ (List.mem_map_of_mem _ hfil)
    · intro e he
      simp only [syncHandler, ho, hp, hn, Bool.not_true, Bool.false_eq_true, if_false,
        List.mem_append, List.mem_map, List.mem_singleton] at he
      rcases he with ⟨x, _, rfl⟩ | rfl <;> rfl

/-- C6 witness: the amended theorem at the concrete inputs — order `b` added
through add-and-notify with a phone supplied, and order `c` entering through
the sync request against the empty server state. -/
theorem new_order_channel_selection_witness :
    (Event.emailNewOrder orderB.id ∈
       (addAndNotifyHandler stateA (some orderB) (some "+15550000") adaptersOk).trace ∧
     Event.whatsappAdminNewOrder orderB.id ∈
       (addAndNotifyHandler stateA (some orderB) (some "+15550000") adaptersOk).trace ∧
     (Event.whatsappCustomerNewOrder orderB.id ∈
        (addAndNotifyHandler stateA (some orderB) (some "+15550000") adaptersOk).trace ↔
       jsTruthyStr (some "+15550000") = true)) ∧
    (Event.emailNewOrder orderC.id ∈ (syncHandler 5 emptyState reqC).trace ∧
     ∀ e ∈ (syncHandler 5 emptyState reqC).trace, e.isWhatsapp = false) :=
  new_order_channel_selection stateA orderB (some "+15550000") adaptersOk 5 emptyState
    reqC [orderC] orderC (by decide) (by decide) (by decide) (by decide) (by decide)

/-! ## C7: unique-id keying of the order sequence -/

/-- C7 counterexample: the server holds the unique-id state with order `a`;
add-and-notify appends a second order that reuses id `a` without any check,
and the resulting id sequence is no longer duplicate-free. -/
theorem add_and_notify_breaks_id_uniqueness :
    (stateA.orders.map (fun o => o.id)).Nodup ∧
    ¬(((addAndNotifyHandler stateA (some orderDupA) none adaptersOk).state.orders.map
        (fun o => o.id)).Nodup) := by
  refine ⟨by decide, by decide⟩

/-- C7 amended: of the three queue operations only update-status preserves
the unique-id keying — it leaves the id sequence unchanged in every case;
add-and-notify appends the submitted order without an id check, and sync
installs the client array unchecked, so either can introduce a duplicate
id. -/
theorem update_status_preserves_ids (s : QueueData)
    (orderId status customerPhone : Option String) (a : Adapters) :
    (updateStatusHandler s orderId status customerPhone a).state.orders.map (fun o => o.id)
      = s.orders.map (fun o => o.id) := by
  unfold updateStatusHandler
  split
  · rfl
  · dsimp only
    split
    · simpa using map_id_set_status s.orders
        (s.orders.findIdx (fun o => o.id == orderId.getD "")) (status.getD "") dummyOrder
    · rfl

/-! ## C8: status-value validation on update-status -/

/-- C8 counterexample: `bogus` is not one of the six valid statuses, yet the
update-status request carrying it is accepted, mutates the stored order's
status to `bogus` and reports success — no enumeration check exists. -/
theorem update_status_accepts_invalid_status :
    "bogus" ∉ (["received", "confirmed", "preparing", "out-for-delivery", "completed",
      "canceled"] : List String) ∧
    (updateStatusHandler stateA (some "a") (some "bogus") none adaptersOk).response
      = Response.okSuccess ∧
    (updateStatusHandler stateA (some "a") (some "bogus") none adaptersOk).state.orders
      = [{ orderA with status := "bogus" }] := by
  refine ⟨by decide, by decide, by decide⟩

/-- C8 amended: update-status validates only presence — a falsy (missing or
empty) `orderId` or `status` is rejected before any mutation with no side
effect; any truthy `status` value, inside or outside the six valid
statuses, is accepted and written verbatim to the matched order. -/
theorem update_status_validates_presence_only (s s2 : QueueData)
    (orderId status customerPhone : Option String) (a : Adapters)
    (orderId2 status2 customerPhone2 : Option String) (b : Adapters)
    (h1 : jsTruthyStr orderId = true) (h2 : jsTruthyStr status = true)
    (h3 : s.orders.findIdx (fun o => o.id == orderId.getD "") < s.orders.length)
    (h4 : jsTruthyStr orderId2 = false ∨ jsTruthyStr status2 = false) :
    ((updateStatusHandler s orderId status customerPhone a).state.orders.getD
        (s.orders.findIdx (fun o => o.id == orderId.getD "")) dummyOrder).status
      = status.getD "" ∧
    ((updateStatusHandler s2 orderId2 status2 customerPhone2 b).response
        = Response.badRequest ∧
     (updateStatusHandler s2 orderId2 status2 customerPhone2 b).state = s2 ∧
     (updateStatusHandler s2 orderId2 status2 customerPhone2 b).trace = []) := by
  constructor
  · have hset : ∀ x : Order,
        (s.orders.set (s.orders.findIdx (fun o => o.id == orderId.getD "")) x).getD
          (s.orders.findIdx (fun o => o.id == orderId.getD "")) dummyOrder = x := by
      intro x
      simp [List.getD_eq_getElem?_getD, List.getElem?_set_self h3]
    unfold updateStatusHandler
    rw [if_neg (by simp [h1, h2])]
    dsimp only
    rw [if_pos h3]
    dsimp only
    rw [hset]
  · have hcond : (!(jsTruthyStr orderId2) || !(jsTruthyStr status2)) = true := by
      rcases h4 with h | h <;> simp [h]
    unfold updateStatusHandler
    rw [if_pos hcond]
    exact ⟨rfl, rfl, rfl⟩

/-- C8 witness: the amended theorem at the held order `a` given the status
value `bogus` (accepted and written) and at a request with an empty
`status` (rejected unchanged). -/
theorem update_status_validates_presence_only_witness :
    ((updateStatusHandler stateA (some "a") (some "bogus") none adaptersOk).state.orders.getD
        (stateA.orders.findIdx (fun o => o.id == (some "a").getD "")) dummyOrder).status
      = (some "bogus").getD "" ∧
    ((updateStatusHandler stateA (some "a") (some "") none adaptersOk).response
        = Response.badRequest ∧
     (updateStatusHandler stateA (some "a") (some "") none adaptersOk).state = stateA ∧
     (updateStatusHandler stateA (some "a") (some "") none adaptersOk).trace = []) :=
  update_status_validates_presence_only stateA stateA (some "a") (some "bogus") none
    adaptersOk (some "a") (some "") none adaptersOk (by decide) (by decide) (by decide)
    (by decide)

/-! ## C9: update-status frame condition -/

/-- C9: when the orderId matches a held order (the first order at the found
index), update-status changes exactly that order's status field: the
sequencer fields are untouched, the order count is unchanged, every order at
another index is unchanged, the matched order keeps all its other fields,
and the matched order indeed carries the requested id. -/
theorem update_status_frame (s : QueueData)
    (orderId status customerPhone : Option String) (a : Adapters)
    (h1 : jsTruthyStr orderId = true) (h2 : jsTruthyStr status = true)
    (h3 : s.orders.findIdx (fun o => o.id == orderId.getD "") < s.orders.length) :
    let i := s.orders.findIdx (fun o => o.id == orderId.getD "")
    let r := updateStatusHandler s orderId status customerPhone a
    r.state.currentPrefix = s.currentPrefix ∧
    r.state.currentNumber = s.currentNumber ∧
    r.state.orders.length = s.orders.length ∧
    (∀ j, j ≠ i → r.state.orders.getD j dummyOrder = s.orders.getD j dummyOrder) ∧
    r.state.orders.getD i dummyOrder
      = { s.orders.getD i dummyOrder with status := status.getD "" } ∧
    (s.orders.getD i dummyOrder).id = orderId.getD "" := by
  intro i r
  have hstate : r.state = { s with
      orders := s.orders.set i ({ s.orders.getD i dummyOrder with status := status.getD "" }) } := by
    show (updateStatusHandler s orderId status customerPhone a).state = _
    unfold updateStatusHandler
    rw [if_neg (by simp [h1, h2])]
    dsimp only
    rw [if_pos h3]
  have hgetD : s.orders.getD i dummyOrder = s.orders.get ⟨i, h3⟩ := by
    simp [List.getD_eq_getElem?_getD, List.getElem?_eq_getElem h3]
  refine ⟨by rw [hstate], by rw [hstate], ?_, ?_, ?_, ?_⟩
  · rw [hstate]
    exact List.length_set s.orders i _
  · intro j hj
    rw [hstate]
    simp [List.getD_eq_getElem?_getD, List.getElem?_set_ne (Ne.symm hj)]
  · rw [hstate]
    simp [List.getD_eq_getElem?_getD, List.getElem?_set_self h3]
  · have hp := @List.findIdx_getElem _ (fun o => o.id == orderId.getD "") s.orders h3
    rw [hgetD]
    simp only [List.get_eq_getElem]
    exact eq_of_beq hp

/-- C9 witness: the frame theorem at the one-order state and the request
setting order `a` to status `confirmado`. -/
theorem update_status_frame_witness :
    let i := stateA.orders.findIdx (fun o => o.id == (some "a").getD "")
    let r := updateStatusHandler stateA (some "a") (some "confirmado") none adaptersOk
    r.state.currentPrefix = stateA.currentPrefix ∧
    r.state.currentNumber = stateA.currentNumber ∧
    r.state.orders.length = stateA.orders.length ∧
    (∀ j, j ≠ i → r.state.orders.getD j dummyOrder = stateA.orders.getD j dummyOrder) ∧
    r.state.orders.getD i dummyOrder
      = { stateA.orders.getD i dummyOrder with status := (some "confirmado").getD "" } ∧
    (stateA.orders.getD i dummyOrder).id = (some "a").getD "" :=
  update_status_frame stateA (some "a") (some "confirmado") none adaptersOk
    (by decide) (by decide) (by decide)

/-! ## C10: the sync response's orderCount -/

/-- C10: a successful sync answers `orderCount` equal to the length of the
client-submitted orders array, which is also the number of orders in the
state it saves — not the number of orders the server held before. -/
theorem sync_order_count_matches_client_array (now : Nat) (s : QueueData)
    (req : SyncRequest) (orders : List Order) (ho : req.orders = some orders)
    (hp : jsTruthyStr req.currentPrefix = true)
    (hn : jsTruthyInt req.currentNumber = true) :
    (syncHandler now s req).response = Response.okSync orders.length ∧
    (syncHandler now s req).state.orders.length = orders.length := by
  simp [syncHandler, ho, hp, hn]

/-- C10 witness: the theorem at the one-order server state and the two-order
client request — orderCount is 2, the client array's length, not the
server's previous count of 1. -/
theorem sync_order_count_matches_client_array_witness :
    (syncHandler 11 stateA reqCD).response = Response.okSync 2 ∧
    (syncHandler 11 stateA reqCD).state.orders.length = 2 :=
  sync_order_count_matches_client_array 11 stateA reqCD [orderC, orderD]
    (by decide) (by decide) (by decide)

end Lanchonete
